import Mathlib

/-!
Shallow embedding of the next-image-fallback repository.

Two state machines are embedded:

1. The fallback-escalation machine of `src/NextImageFallback.tsx`
   (component `NextImageFallback`): state `currentSrc`, `hasTriedFallback`,
   `showAlternativeFallback`; handlers `handleError` and
   `handleLoadingComplete`; placeholder rendering thresholds of
   `AlternativeFallbackPlaceholder`.

2. The retry-with-backoff machine of `RetryImage.tsx`
   (component `RetryImage` and hook `useImageRetry`): `calculateDelay`,
   `handleError`, `handleLoad`, the retry timer, the src-change effect,
   the unmount cleanup, and the hook operations `retry`, `reset`,
   `handleError`, `handleLoad`.

JavaScript string sources are modelled as `String`; JS truthiness of a
string (`s` is falsy iff it is the empty string) is made explicit.
Timers (`setTimeout` handles) are modelled by a list of outstanding
timer ids with their delays plus the single `timeoutRef` cell that the
components keep; `Date.now()` is an explicit parameter of a timer-fire
event.  Notification callbacks are modelled as emitted records, counted
over event traces.
-/

/-- JS `str.includes(c)` on a one-character needle, as used by
`originalSrc.current?.includes('?')` in the retry machine. -/
def strContains (s : String) (c : Char) : Bool := s.data.any (fun a => a == c)

/-! ## Fallback-escalation machine (`src/NextImageFallback.tsx`) -/

/-- The `AlternativeFallbackType` union: `'gradient' | 'waves' | 'mono'`. -/
inductive AltType
  | gradient
  | waves
  | mono
deriving DecidableEq

/-- The inputs of `NextImageFallback` that the escalation logic reads:
`src`, `fallbackSrc`, `alternativeFallback`.  `fallbackSrc = none` models an
absent prop. -/
structure Cfg where
  src : String
  fallbackSrc : Option String
  alternativeFallback : Option AltType
deriving DecidableEq

/-- The three `useState` cells of `NextImageFallback`. -/
structure FState where
  currentSrc : String
  hasTriedFallback : Bool
  showAlternativeFallback : Bool
deriving DecidableEq

/-- The state after mount or after the `useEffect` on `[src]` runs
(lines 217-221): `currentSrc = src`, both flags false. -/
def initState (c : Cfg) : FState :=
  { currentSrc := c.src, hasTriedFallback := false, showAlternativeFallback := false }

/-- The string value of `fallbackSrc`, defaulting to the empty string when
absent; only read under `fallbackTruthy`. -/
def fbVal (c : Cfg) : String := c.fallbackSrc.getD ""

/-- JS truthiness of the `fallbackSrc` prop (absent and the empty string are
falsy). -/
def fallbackTruthy (c : Cfg) : Bool := fbVal c != ""

/-- The guard of the first branch of both handlers:
`fallbackSrc && !hasTriedFallback && currentSrc !== fallbackSrc`. -/
def tryFallbackCond (c : Cfg) (s : FState) : Bool :=
  fallbackTruthy c && !s.hasTriedFallback && s.currentSrc != fbVal c

/-- The callbacks invoked during one handler call: the internal
notifications `onFallback` and `onAlternativeFallback`, and the
pass-through `onError` / `onLoadingComplete` calls. -/
structure Notif where
  fallback : Bool
  altFallback : Bool
  error : Bool
  loadingComplete : Bool
deriving DecidableEq

/-- No callback invoked. -/
def noNotif : Notif :=
  { fallback := false, altFallback := false, error := false, loadingComplete := false }

/-- The `handleError` handler (lines 223-242): three-way branch, then the
caller's `onError` is always invoked. -/
def handleError (c : Cfg) (s : FState) : FState × Notif :=
  if tryFallbackCond c s then
    ({ s with currentSrc := fbVal c, hasTriedFallback := true },
     { fallback := true, altFallback := false, error := true, loadingComplete := false })
  else if s.hasTriedFallback && c.alternativeFallback.isSome then
    ({ s with showAlternativeFallback := true },
     { fallback := false, altFallback := true, error := true, loadingComplete := false })
  else if !fallbackTruthy c && c.alternativeFallback.isSome then
    ({ s with showAlternativeFallback := true },
     { fallback := false, altFallback := true, error := true, loadingComplete := false })
  else
    (s, { fallback := false, altFallback := false, error := true, loadingComplete := false })

/-- The `handleLoadingComplete` handler (lines 244-270): the two
zero-`naturalWidth` branches return early, suppressing the caller's
`onLoadingComplete`; otherwise only `onLoadingComplete` is invoked. -/
def handleLoadingComplete (c : Cfg) (s : FState) (naturalWidth naturalHeight : Nat) :
    FState × Notif :=
  if naturalWidth == 0 && tryFallbackCond c s then
    ({ s with currentSrc := fbVal c, hasTriedFallback := true },
     { fallback := true, altFallback := false, error := false, loadingComplete := false })
  else if naturalWidth == 0 && s.hasTriedFallback && c.alternativeFallback.isSome then
    ({ s with showAlternativeFallback := true },
     { fallback := false, altFallback := true, error := false, loadingComplete := false })
  else
    (s, { fallback := false, altFallback := false, error := false, loadingComplete := true })

/-- The render guard of lines 273-285: the placeholder (and not the image)
is rendered iff `showAlternativeFallback && alternativeFallback`. -/
def rendersPlaceholder (c : Cfg) (s : FState) : Bool :=
  s.showAlternativeFallback && c.alternativeFallback.isSome

/-- Load events the image element can report: an error, or a completed load
with natural dimensions. -/
inductive Ev
  | err
  | complete (naturalWidth naturalHeight : Nat)

/-- One delivered event.  While the placeholder is rendered the `Image`
element (and with it both handlers) is not mounted, so no load event can be
delivered: the machine is inert. -/
def deliver (c : Cfg) (s : FState) (e : Ev) : FState × Notif :=
  if rendersPlaceholder c s then (s, noNotif)
  else
    match e with
    | .err => handleError c s
    | .complete w h => handleLoadingComplete c s w h

/-- Number of steps of a trace in which the callback selected by `f` is
invoked. -/
def countNotif (f : Notif → Bool) (c : Cfg) : FState → List Ev → Nat
  | _, [] => 0
  | s, e :: es =>
      (if f (deliver c s e).2 then 1 else 0) + countNotif f c (deliver c s e).1 es

/-- A `width`/`height` prop value: `number | string`. -/
inductive Dim
  | num (n : Int)
  | str (s : String)
deriving DecidableEq

/-- JS truthiness of a `number | string` value (`0` and `""` are falsy). -/
def Dim.truthy : Dim → Bool
  | .num n => n != 0
  | .str s => s != ""

/-- The `width || 100` / `height || 100` expressions of lines 281-282:
an absent or falsy dimension prop is replaced by the number 100. -/
def placeholderDim (w : Option Dim) : Dim :=
  match w with
  | some d => if d.truthy then d else .num 100
  | none => .num 100

/-- Line 162: `typeof width === 'number' ? width >= 60 : true`. -/
def showIcon : Dim → Bool
  | .num n => decide (60 ≤ n)
  | .str _ => true

/-- Line 163: `typeof width === 'number' ? width >= 80 : true`. -/
def showText : Dim → Bool
  | .num n => decide (80 ≤ n)
  | .str _ => true

/-! ## Retry-with-backoff machine (`RetryImage.tsx`) -/

/-- `RetryConfig` with all fields required, as after merging with
`DEFAULT_RETRY_CONFIG`. -/
structure RetryConfig where
  maxRetries : Nat
  retryDelay : Nat
  exponentialBackoff : Bool
  maxDelay : Nat
deriving DecidableEq

/-- `DEFAULT_RETRY_CONFIG` (lines 97-102). -/
def DEFAULT_RETRY_CONFIG : RetryConfig :=
  { maxRetries := 3, retryDelay := 1000, exponentialBackoff := true, maxDelay := 10000 }

/-- `calculateDelay` (lines 107-116).  Every call site passes
`attempt ≥ 1`, so `Nat` subtraction in the exponent agrees with the JS
`Math.pow(2, attempt - 1)`. -/
def calculateDelay (attempt baseDelay : Nat) (exponential : Bool) (maxDelay : Nat) : Nat :=
  if !exponential then baseDelay
  else min (baseDelay * 2 ^ (attempt - 1)) maxDelay

/-- Modelled from the spec (section 4.2, delay function): the scheduled
delay is `baseDelay` when backoff is disabled, else
`min(baseDelay * 2 ^ (n - 1), maxDelay)`.  Used only to compare the
source's `calculateDelay` against the spec's wording. -/
def specDelay (n baseDelay : Nat) (exponential : Bool) (maxDelay : Nat) : Nat :=
  if exponential then min (baseDelay * 2 ^ (n - 1)) maxDelay else baseDelay

/-- The cache-busting reload of the timer callback (lines 204-209):
append `?_retry=<now>` or `&_retry=<now>` depending on whether the
original source already contains a query marker. -/
def cacheBust (orig : String) (now : Nat) : String :=
  orig ++ (if strContains orig '?' then "&" else "?") ++ "_retry=" ++ toString now

/-- The state of one `RetryImage` instance: the `useState` cells, the
`originalSrc` and `timeoutRef` refs, plus the set of outstanding
(scheduled, unfired, uncancelled) timers as `(id, delay)` pairs and a
fresh-id counter. -/
structure RIState where
  currentSrc : String
  originalSrc : String
  attempts : Nat
  isRetrying : Bool
  hasLoaded : Bool
  hasExhaustedRetries : Bool
  timeoutRef : Option Nat
  pendingTimers : List (Nat × Nat)
  nextTimerId : Nat
deriving DecidableEq

/-- Mount state of `RetryImage` for a string `src`. -/
def initRI (src : String) : RIState :=
  { currentSrc := src, originalSrc := src, attempts := 0, isRetrying := false,
    hasLoaded := false, hasExhaustedRetries := false, timeoutRef := none,
    pendingTimers := [], nextTimerId := 0 }

/-- The callbacks invoked and the timer scheduled during one `RetryImage`
step. -/
structure REmits where
  onError : Bool
  onRetry : Option (Nat × Nat)
  onRetriesExhausted : Bool
  onSuccess : Option Nat
  scheduledDelay : Option Nat
deriving DecidableEq

/-- No callback invoked, no timer scheduled. -/
def noREmits : REmits :=
  { onError := false, onRetry := none, onRetriesExhausted := false,
    onSuccess := none, scheduledDelay := none }

/-- JS truthiness applied to the optional `fallbackSrc` prop of
`RetryImage`. -/
def optTruthy (o : Option String) : Bool :=
  match o with
  | some s => s != ""
  | none => false

/-- `RetryImage`'s `handleError` (lines 178-232): increment the attempt
counter; below `maxRetries` schedule a retry timer (overwriting
`timeoutRef` without clearing it), else mark the retries exhausted and
switch to `fallbackSrc` when truthy. -/
def handleErrorRetry (cfg : RetryConfig) (fallbackSrc : Option String) (s : RIState) :
    RIState × REmits :=
  let newAttempts := s.attempts + 1
  if newAttempts < cfg.maxRetries then
    let delay := calculateDelay newAttempts cfg.retryDelay cfg.exponentialBackoff cfg.maxDelay
    ({ s with
        attempts := newAttempts,
        isRetrying := true,
        timeoutRef := some s.nextTimerId,
        pendingTimers := s.pendingTimers ++ [(s.nextTimerId, delay)],
        nextTimerId := s.nextTimerId + 1 },
     { onError := true, onRetry := some (newAttempts, cfg.maxRetries),
       onRetriesExhausted := false, onSuccess := none, scheduledDelay := some delay })
  else
    ({ s with
        attempts := newAttempts,
        hasExhaustedRetries := true,
        currentSrc := if optTruthy fallbackSrc then (fallbackSrc.getD "") else s.currentSrc },
     { onError := true, onRetry := none, onRetriesExhausted := true,
       onSuccess := none, scheduledDelay := none })

/-- `RetryImage`'s `handleLoad` (lines 234-238). -/
def handleLoadRetry (s : RIState) : RIState × REmits :=
  ({ s with hasLoaded := true, isRetrying := false },
   { onError := false, onRetry := none, onRetriesExhausted := false,
     onSuccess := some s.attempts, scheduledDelay := none })

/-- Firing of an outstanding timer (the callback of lines 204-209): clear
`isRetrying` and reload from a cache-busted `originalSrc.current` read at
fire time.  Firing an id that is not outstanding is a no-op. -/
def fireRetryTimer (s : RIState) (id now : Nat) : RIState :=
  if s.pendingTimers.any (fun p => p.1 == id) then
    { s with
        isRetrying := false,
        currentSrc := cacheBust s.originalSrc now,
        pendingTimers := s.pendingTimers.filter (fun p => p.1 != id) }
  else s

/-- The `useEffect` on `[src]` (lines 150-160): when the string `src` prop
differs from `originalSrc.current`, reset every state cell.  The pending
timer is not touched. -/
def srcChangeEffect (s : RIState) (newSrc : String) : RIState :=
  if newSrc != s.originalSrc then
    { s with
        originalSrc := newSrc,
        currentSrc := newSrc,
        attempts := 0,
        hasLoaded := false,
        hasExhaustedRetries := false,
        isRetrying := false }
  else s

/-- The unmount cleanup (lines 163-169): `clearTimeout(timeoutRef.current)`
cancels the timer currently held in the ref, if still outstanding. -/
def unmountCleanup (s : RIState) : RIState :=
  match s.timeoutRef with
  | some id => { s with pendingTimers := s.pendingTimers.filter (fun p => p.1 != id) }
  | none => s

/-- Events of one `RetryImage` instance. -/
inductive REv
  | err
  | load
  | timerFire (id now : Nat)
  | srcChange (newSrc : String)

/-- One step of the `RetryImage` machine. -/
def stepRI (cfg : RetryConfig) (fallbackSrc : Option String) (s : RIState) (e : REv) :
    RIState × REmits :=
  match e with
  | .err => handleErrorRetry cfg fallbackSrc s
  | .load => handleLoadRetry s
  | .timerFire id now => (fireRetryTimer s id now, noREmits)
  | .srcChange newSrc => (srcChangeEffect s newSrc, noREmits)

/-- The state after a trace of events. -/
def traceRI (cfg : RetryConfig) (fallbackSrc : Option String) : RIState → List REv → RIState
  | s, [] => s
  | s, e :: es => traceRI cfg fallbackSrc (stepRI cfg fallbackSrc s e).1 es

/-- The emissions along a trace of events. -/
def emitsRI (cfg : RetryConfig) (fallbackSrc : Option String) :
    RIState → List REv → List REmits
  | _, [] => []
  | s, e :: es => (stepRI cfg fallbackSrc s e).2 :: emitsRI cfg fallbackSrc (stepRI cfg fallbackSrc s e).1 es

/-- Whether an event is a change of the requested source (ends the
source-lifetime). -/
def REv.isSrcChange : REv → Bool
  | .srcChange _ => true
  | _ => false

/-! ## The `useImageRetry` hook (lines 298-383) -/

/-- The state of one `useImageRetry` instance: the `useState` cells
(`error` modelled by its message), the `originalSrc` and `timeoutRef`
refs, and the outstanding timers. -/
structure HState where
  src : String
  originalSrc : String
  attempts : Nat
  isRetrying : Bool
  hasLoaded : Bool
  hasExhaustedRetries : Bool
  error : Option String
  timeoutRef : Option Nat
  pendingTimers : List (Nat × Nat)
  nextTimerId : Nat
deriving DecidableEq

/-- Hook state for `useImageRetry(initialSrc, ...)`. -/
def initH (initialSrc : String) : HState :=
  { src := initialSrc, originalSrc := initialSrc, attempts := 0, isRetrying := false,
    hasLoaded := false, hasExhaustedRetries := false, error := none,
    timeoutRef := none, pendingTimers := [], nextTimerId := 0 }

/-- The hook's `retry` (lines 332-357): when the incremented count reaches
`maxRetries` it only sets the exhausted flag (the counter itself is not
incremented) and returns false; otherwise it increments the counter,
sets `isRetrying` and schedules the timer, returning true. -/
def hookRetry (cfg : RetryConfig) (s : HState) : HState × Bool :=
  let newAttempts := s.attempts + 1
  if cfg.maxRetries ≤ newAttempts then
    ({ s with hasExhaustedRetries := true }, false)
  else
    let delay := calculateDelay newAttempts cfg.retryDelay cfg.exponentialBackoff cfg.maxDelay
    ({ s with
        attempts := newAttempts,
        isRetrying := true,
        timeoutRef := some s.nextTimerId,
        pendingTimers := s.pendingTimers ++ [(s.nextTimerId, delay)],
        nextTimerId := s.nextTimerId + 1 }, true)

/-- The hook's `reset` (lines 323-330): restore `src` to the original and
every counter and flag to its initial value.  `timeoutRef` and the
outstanding timers are not touched. -/
def hookReset (s : HState) : HState :=
  { s with
      src := s.originalSrc,
      attempts := 0,
      isRetrying := false,
      hasLoaded := false,
      hasExhaustedRetries := false,
      error := none }

/-- The hook's `handleError` (lines 359-362): record the error, then
`retry()`. -/
def hookHandleError (cfg : RetryConfig) (s : HState) (msg : Option String) : HState :=
  (hookRetry cfg { s with error := some (msg.getD "Image failed to load") }).1

/-- The hook's `handleLoad` (lines 364-368). -/
def hookHandleLoad (s : HState) : HState :=
  { s with hasLoaded := true, isRetrying := false, error := none }

/-- Firing of an outstanding hook timer (lines 350-354). -/
def hookFireTimer (s : HState) (id now : Nat) : HState :=
  if s.pendingTimers.any (fun p => p.1 == id) then
    { s with
        isRetrying := false,
        src := cacheBust s.originalSrc now,
        pendingTimers := s.pendingTimers.filter (fun p => p.1 != id) }
  else s

/-- Events of one `useImageRetry` instance. -/
inductive HEv
  | err (msg : Option String)
  | retryCall
  | load
  | timerFire (id now : Nat)
  | resetCall

/-- One step of the hook machine. -/
def stepH (cfg : RetryConfig) (s : HState) (e : HEv) : HState :=
  match e with
  | .err msg => hookHandleError cfg s msg
  | .retryCall => (hookRetry cfg s).1
  | .load => hookHandleLoad s
  | .timerFire id now => hookFireTimer s id now
  | .resetCall => hookReset s

/-- The hook state after a trace of events. -/
def traceH (cfg : RetryConfig) : HState → List HEv → HState
  | s, [] => s
  | s, e :: es => traceH cfg (stepH cfg s e) es

/-- Whether a hook event is a `reset()` call (ends the source-lifetime). -/
def HEv.isReset : HEv → Bool
  | .resetCall => true
  | _ => false

/-! ## Helper lemmas -/

theorem tryFallbackCond_hasTried {c : Cfg} {s : FState} (h : tryFallbackCond c s = true) :
    s.hasTriedFallback = false := by
  unfold tryFallbackCond at h
  simp only [Bool.and_eq_true, Bool.not_eq_true'] at h
  exact h.1.2

/-! ## Claim C2 -/

/-- Claim C2: for every attempt number `n ≥ 1` and configuration, the
computed retry delay equals `baseDelay` when exponential backoff is
disabled and `min(baseDelay * 2 ^ (n - 1), maxDelay)` when enabled; with
`exponentialBackoff = false` and `retryDelay = 500` every delay is 500. -/
theorem calculateDelay_matches_spec (n baseDelay maxDelay : Nat) (exponential : Bool)
    (h : 1 ≤ n) :
    calculateDelay n baseDelay exponential maxDelay =
      specDelay n baseDelay exponential maxDelay ∧
    calculateDelay n 500 false maxDelay = 500 := by
  unfold calculateDelay specDelay
  cases exponential <;> simp

/-- Witness for C2 at `n = 3` with the default configuration. -/
theorem calculateDelay_matches_spec_witness :
    calculateDelay 3 1000 true 10000 = specDelay 3 1000 true 10000 ∧
    calculateDelay 3 500 false 10000 = 500 :=
  calculateDelay_matches_spec 3 1000 10000 true (by decide)

/-! ## Claim C10 -/

/-- Claim C10: a missing or zero width (likewise height) is replaced by
100, so the placeholder icon and text are shown in that case (the 60 and
80 thresholds evaluate against 100); the icon is hidden exactly for
numeric effective widths below 60, the text exactly below 80, and string
widths always show both. -/
theorem placeholder_dims_and_thresholds :
    placeholderDim none = Dim.num 100 ∧
    placeholderDim (some (Dim.num 0)) = Dim.num 100 ∧
    showIcon (placeholderDim none) = true ∧
    showText (placeholderDim none) = true ∧
    showIcon (placeholderDim (some (Dim.num 0))) = true ∧
    showText (placeholderDim (some (Dim.num 0))) = true ∧
    (∀ n : Int, showIcon (Dim.num n) = false ↔ n < 60) ∧
    (∀ n : Int, showText (Dim.num n) = false ↔ n < 80) ∧
    (∀ s : String, showIcon (placeholderDim (some (Dim.str s))) = true ∧
      showText (placeholderDim (some (Dim.str s))) = true) := by
  refine ⟨rfl, rfl, rfl, rfl, rfl, rfl, ?_, ?_, ?_⟩
  · intro n
    simp [showIcon]
  · intro n
    simp [showText]
  · intro s
    by_cases hs : s = ""
    · subst hs
      exact ⟨rfl, rfl⟩
    · have ht : (Dim.str s).truthy = true := by
        simp [Dim.truthy, hs]
      simp [placeholderDim, ht, showIcon, showText]

/-! ## Claim C4 -/

/-- Claim C4 counterexample: in the `Primary` stage with
`fallbackSrc = "a"` equal to the requested source `"a"` and a placeholder
kind set, a load failure neither shows the placeholder nor invokes the
showing-placeholder notification: the handler leaves the state unchanged,
against the claim that the machine transitions to
`ShowingStaticPlaceholder`. -/
theorem primary_equal_fallback_no_placeholder :
    handleError ⟨"a", some "a", some AltType.gradient⟩
        (initState ⟨"a", some "a", some AltType.gradient⟩) =
      (initState ⟨"a", some "a", some AltType.gradient⟩,
       { fallback := false, altFallback := false, error := true, loadingComplete := false }) ∧
    (handleError ⟨"a", some "a", some AltType.gradient⟩
        (initState ⟨"a", some "a", some AltType.gradient⟩)).2.altFallback = false := by
  decide

/-- Claim C4 (amended): on a failure in the `Primary` stage, if
`fallbackSrc` is truthy and differs from the current source the machine
switches to the fallback source and fires `onFallback`; if `fallbackSrc`
is absent or empty and a placeholder kind is set the machine shows the
placeholder and fires the showing-placeholder notification; but if
`fallbackSrc` is truthy and equal to the current source, no internal
transition and no internal notification happens. -/
theorem handleError_primary (c : Cfg) (s : FState)
    (h1 : s.hasTriedFallback = false) (h2 : s.showAlternativeFallback = false) :
    (∀ fb, c.fallbackSrc = some fb → fb ≠ "" → s.currentSrc ≠ fb →
      handleError c s =
        ({ currentSrc := fb, hasTriedFallback := true, showAlternativeFallback := false },
         { fallback := true, altFallback := false, error := true, loadingComplete := false })) ∧
    (fallbackTruthy c = false → c.alternativeFallback.isSome = true →
      handleError c s =
        ({ s with showAlternativeFallback := true },
         { fallback := false, altFallback := true, error := true, loadingComplete := false })) ∧
    (∀ fb, c.fallbackSrc = some fb → fb ≠ "" → s.currentSrc = fb →
      handleError c s =
        (s, { fallback := false, altFallback := false, error := true,
              loadingComplete := false })) := by
  refine ⟨?_, ?_, ?_⟩
  · intro fb hfb hne hcur
    have hv : fbVal c = fb := by simp [fbVal, hfb]
    have hcond : tryFallbackCond c s = true := by
      simp [tryFallbackCond, fallbackTruthy, hv, h1, hne, hcur]
    simp [handleError, hcond, hv, h2]
  · intro hft halt
    have hcond : tryFallbackCond c s = false := by
      simp [tryFallbackCond, hft]
    simp [handleError, hcond, h1, hft, halt]
  · intro fb hfb hne hcur
    have hv : fbVal c = fb := by simp [fbVal, hfb]
    have hft : fallbackTruthy c = true := by
      simp [fallbackTruthy, hv, hne]
    have hcond : tryFallbackCond c s = false := by
      simp [tryFallbackCond, hv, hcur]
    simp [handleError, hcond, h1, hft]

/-- Witness for the amended C4: the fallback-switch branch on concrete
inputs. -/
theorem handleError_primary_witness :
    handleError ⟨"a", some "f", none⟩ (initState ⟨"a", some "f", none⟩) =
      ({ currentSrc := "f", hasTriedFallback := true, showAlternativeFallback := false },
       { fallback := true, altFallback := false, error := true, loadingComplete := false }) :=
  (handleError_primary ⟨"a", some "f", none⟩ (initState ⟨"a", some "f", none⟩) rfl rfl).1
    "f" rfl (by decide) (by decide)

/-! ## Claim C8 -/

/-- Claim C8 counterexample: a successful-load signal with zero natural
width that triggers the internal fallback switch does not invoke the
caller's `onLoadingComplete` (the handler returns early), against the
claim that the caller's callbacks are always invoked. -/
theorem loadingComplete_suppressed :
    (handleLoadingComplete ⟨"a", some "f", none⟩
        (initState ⟨"a", some "f", none⟩) 0 0).2.loadingComplete = false ∧
    (handleLoadingComplete ⟨"a", some "f", none⟩
        (initState ⟨"a", some "f", none⟩) 0 0).2.fallback = true := by
  decide

/-- Claim C8 (amended): the caller's `onError` is invoked on every
failure event, and the caller's `onLoadingComplete` is invoked on a
successful-load event exactly when neither zero-natural-width internal
branch fires (when a zero-width load triggers the fallback switch or the
placeholder escalation, `onLoadingComplete` is suppressed by the early
return). -/
theorem caller_callbacks (c : Cfg) (s : FState) (nw nh : Nat) :
    (handleError c s).2.error = true ∧
    (handleLoadingComplete c s nw nh).2.loadingComplete =
      (!(nw == 0 && tryFallbackCond c s) &&
       !(nw == 0 && s.hasTriedFallback && c.alternativeFallback.isSome)) := by
  constructor
  · unfold handleError
    split_ifs <;> rfl
  · unfold handleLoadingComplete
    split_ifs with hc1 hc2 <;> simp_all
    constructor
    · by_cases hnw : nw = 0
      · exact Or.inr (hc1 hnw)
      · exact Or.inl hnw
    · by_cases hnw : nw = 0
      · cases htr : s.hasTriedFallback
        · exact Or.inl (Or.inr rfl)
        · exact Or.inr (hc2 hnw htr)
      · exact Or.inl (Or.inl hnw)

/-! ## Claim C9 -/

/-- Claim C9 counterexample: with no `fallbackSrc`, a placeholder kind
set, and the fallback not yet tried, an explicit error signal escalates
to the placeholder and fires the showing-placeholder notification, while
a zero-dimension successful-load signal leaves the state unchanged and
fires nothing internal: the two failure-detection paths are not
equivalent. -/
theorem zero_dim_differs_from_error :
    (handleError ⟨"a", none, some AltType.gradient⟩
        (initState ⟨"a", none, some AltType.gradient⟩)).1 ≠
      (handleLoadingComplete ⟨"a", none, some AltType.gradient⟩
        (initState ⟨"a", none, some AltType.gradient⟩) 0 0).1 ∧
    (handleError ⟨"a", none, some AltType.gradient⟩
        (initState ⟨"a", none, some AltType.gradient⟩)).2.altFallback = true ∧
    (handleLoadingComplete ⟨"a", none, some AltType.gradient⟩
        (initState ⟨"a", none, some AltType.gradient⟩) 0 0).2.altFallback = false := by
  decide

/-- Claim C9 (amended): an explicit error signal and a zero-dimension
successful-load signal induce the same state transition and the same
internal notifications (`onFallback`, `onAlternativeFallback`) in every
state where `fallbackSrc` is truthy, or no placeholder kind is set, or
the fallback has already been tried; the only divergence is the
remaining case (no truthy `fallbackSrc`, placeholder kind set, fallback
untried), where the error path escalates to the placeholder and the
zero-dimension path does not. -/
theorem error_zero_dim_agree (c : Cfg) (s : FState) (nh : Nat)
    (h : fallbackTruthy c = true ∨ c.alternativeFallback = none ∨
      s.hasTriedFallback = true) :
    (handleError c s).1 = (handleLoadingComplete c s 0 nh).1 ∧
    (handleError c s).2.fallback = (handleLoadingComplete c s 0 nh).2.fallback ∧
    (handleError c s).2.altFallback = (handleLoadingComplete c s 0 nh).2.altFallback := by
  unfold handleError handleLoadingComplete
  by_cases h1 : tryFallbackCond c s = true
  · simp [h1]
  · simp only [Bool.not_eq_true] at h1
    by_cases h2 : (s.hasTriedFallback && c.alternativeFallback.isSome) = true
    · simp [h1, h2]
    · simp only [Bool.not_eq_true] at h2
      have h3 : (!fallbackTruthy c && c.alternativeFallback.isSome) = false := by
        rcases h with hft | halt | htried
        · simp [hft]
        · simp [halt]
        · have : c.alternativeFallback.isSome = false := by
            cases halt : c.alternativeFallback.isSome
            · rfl
            · rw [htried, halt] at h2
              cases h2
          simp [this]
      simp [h1, h2, h3]

/-- Witness for the amended C9 on concrete inputs with a truthy
`fallbackSrc`. -/
theorem error_zero_dim_agree_witness :
    (handleError ⟨"a", some "f", none⟩ (initState ⟨"a", some "f", none⟩)).1 =
      (handleLoadingComplete ⟨"a", some "f", none⟩
        (initState ⟨"a", some "f", none⟩) 0 0).1 :=
  (error_zero_dim_agree ⟨"a", some "f", none⟩ (initState ⟨"a", some "f", none⟩) 0
    (Or.inl (by decide))).1

/-! ## Claim C1 -/

theorem deliver_placeholder {c : Cfg} {s : FState} (h : rendersPlaceholder c s = true)
    (e : Ev) : deliver c s e = (s, noNotif) := by
  unfold deliver
  simp [h]

theorem deliver_err {c : Cfg} {s : FState} (hp : rendersPlaceholder c s = false) :
    deliver c s Ev.err = handleError c s := by
  unfold deliver
  simp [hp]

theorem deliver_complete {c : Cfg} {s : FState} (hp : rendersPlaceholder c s = false)
    (nw nh : Nat) :
    deliver c s (Ev.complete nw nh) = handleLoadingComplete c s nw nh := by
  unfold deliver
  simp [hp]

theorem handleError_fallback_fires (c : Cfg) (s : FState)
    (h : (handleError c s).2.fallback = true) :
    s.hasTriedFallback = false ∧ (handleError c s).1.hasTriedFallback = true := by
  by_cases h1 : tryFallbackCond c s = true
  · refine ⟨tryFallbackCond_hasTried h1, ?_⟩
    unfold handleError
    rw [if_pos h1]
  · exfalso
    unfold handleError at h
    rw [if_neg h1] at h
    split_ifs at h

theorem handleLoadingComplete_fallback_fires (c : Cfg) (s : FState) (nw nh : Nat)
    (h : (handleLoadingComplete c s nw nh).2.fallback = true) :
    s.hasTriedFallback = false ∧
      (handleLoadingComplete c s nw nh).1.hasTriedFallback = true := by
  by_cases h1 : (nw == 0 && tryFallbackCond c s) = true
  · have h1' := h1
    simp only [Bool.and_eq_true] at h1'
    refine ⟨tryFallbackCond_hasTried h1'.2, ?_⟩
    unfold handleLoadingComplete
    rw [if_pos h1]
  · exfalso
    unfold handleLoadingComplete at h
    rw [if_neg h1] at h
    split_ifs at h

theorem handleError_hasTried_mono (c : Cfg) (s : FState)
    (h : s.hasTriedFallback = true) : (handleError c s).1.hasTriedFallback = true := by
  unfold handleError
  split_ifs <;> simp [h]

theorem handleLoadingComplete_hasTried_mono (c : Cfg) (s : FState) (nw nh : Nat)
    (h : s.hasTriedFallback = true) :
    (handleLoadingComplete c s nw nh).1.hasTriedFallback = true := by
  unfold handleLoadingComplete
  split_ifs <;> simp [h]

theorem handleError_alt_fires (c : Cfg) (s : FState)
    (h : (handleError c s).2.altFallback = true) :
    rendersPlaceholder c (handleError c s).1 = true := by
  unfold handleError at h ⊢
  by_cases h1 : tryFallbackCond c s = true
  · rw [if_pos h1] at h
    simp at h
  · rw [if_neg h1] at h ⊢
    by_cases h2 : (s.hasTriedFallback && c.alternativeFallback.isSome) = true
    · rw [if_pos h2]
      simp only [Bool.and_eq_true] at h2
      simp [rendersPlaceholder, h2.2]
    · rw [if_neg h2] at h ⊢
      by_cases h3 : (!fallbackTruthy c && c.alternativeFallback.isSome) = true
      · rw [if_pos h3]
        simp only [Bool.and_eq_true] at h3
        simp [rendersPlaceholder, h3.2]
      · rw [if_neg h3] at h
        simp at h

theorem handleLoadingComplete_alt_fires (c : Cfg) (s : FState) (nw nh : Nat)
    (h : (handleLoadingComplete c s nw nh).2.altFallback = true) :
    rendersPlaceholder c (handleLoadingComplete c s nw nh).1 = true := by
  unfold handleLoadingComplete at h ⊢
  by_cases h1 : (nw == 0 && tryFallbackCond c s) = true
  · rw [if_pos h1] at h
    simp at h
  · rw [if_neg h1] at h ⊢
    by_cases h2 : (nw == 0 && s.hasTriedFallback && c.alternativeFallback.isSome) = true
    · rw [if_pos h2]
      simp only [Bool.and_eq_true] at h2
      simp [rendersPlaceholder, h2.2]
    · rw [if_neg h2] at h
      simp at h

theorem deliver_fallback_fires (c : Cfg) (s : FState) (e : Ev)
    (h : (deliver c s e).2.fallback = true) :
    s.hasTriedFallback = false ∧ (deliver c s e).1.hasTriedFallback = true := by
  by_cases hp : rendersPlaceholder c s = true
  · rw [deliver_placeholder hp] at h
    simp [noNotif] at h
  · have hp' : rendersPlaceholder c s = false := by simpa using hp
    cases e with
    | err =>
        rw [deliver_err hp'] at h ⊢
        exact handleError_fallback_fires c s h
    | complete nw nh =>
        rw [deliver_complete hp'] at h ⊢
        exact handleLoadingComplete_fallback_fires c s nw nh h

theorem deliver_hasTried_mono (c : Cfg) (s : FState) (e : Ev)
    (h : s.hasTriedFallback = true) : (deliver c s e).1.hasTriedFallback = true := by
  by_cases hp : rendersPlaceholder c s = true
  · rw [deliver_placeholder hp]
    exact h
  · have hp' : rendersPlaceholder c s = false := by simpa using hp
    cases e with
    | err =>
        rw [deliver_err hp']
        exact handleError_hasTried_mono c s h
    | complete nw nh =>
        rw [deliver_complete hp']
        exact handleLoadingComplete_hasTried_mono c s nw nh h

theorem deliver_alt_fires (c : Cfg) (s : FState) (e : Ev)
    (h : (deliver c s e).2.altFallback = true) :
    rendersPlaceholder c s = false ∧ rendersPlaceholder c (deliver c s e).1 = true := by
  by_cases hp : rendersPlaceholder c s = true
  · rw [deliver_placeholder hp] at h
    simp [noNotif] at h
  · have hp' : rendersPlaceholder c s = false := by simpa using hp
    refine ⟨hp', ?_⟩
    cases e with
    | err =>
        rw [deliver_err hp'] at h ⊢
        exact handleError_alt_fires c s h
    | complete nw nh =>
        rw [deliver_complete hp'] at h ⊢
        exact handleLoadingComplete_alt_fires c s nw nh h

theorem countNotif_zero (f : Notif → Bool) (c : Cfg) (P : FState → Bool)
    (hfire : ∀ s e, f (deliver c s e).2 = true → P s = false)
    (hmono : ∀ s e, P s = true → P (deliver c s e).1 = true) :
    ∀ (es : List Ev) (s : FState), P s = true → countNotif f c s es = 0 := by
  intro es
  induction es with
  | nil => intro s _; rfl
  | cons e es ih =>
      intro s hs
      have hf : f (deliver c s e).2 = false := by
        cases hval : f (deliver c s e).2
        · rfl
        · rw [hfire s e hval] at hs
          cases hs
      unfold countNotif
      simp only [hf, Bool.false_eq_true, if_false, Nat.zero_add]
      exact ih _ (hmono s e hs)

theorem countNotif_le_one (f : Notif → Bool) (c : Cfg) (P : FState → Bool)
    (hfire : ∀ s e, f (deliver c s e).2 = true →
      P s = false ∧ P (deliver c s e).1 = true)
    (hmono : ∀ s e, P s = true → P (deliver c s e).1 = true) :
    ∀ (es : List Ev) (s : FState), countNotif f c s es ≤ 1 := by
  intro es
  induction es with
  | nil => intro s; simp [countNotif]
  | cons e es ih =>
      intro s
      unfold countNotif
      cases hval : f (deliver c s e).2
      · simpa using ih (deliver c s e).1
      · have hz := countNotif_zero f c P (fun s e hh => (hfire s e hh).1) hmono es
          (deliver c s e).1 (hfire s e hval).2
        simp [hz]

/-- Claim C1: over every sequence of load events delivered within one
source-lifetime of `NextImageFallback` (no change of `src`), the
`onFallback` notification is invoked at most once and the
`onAlternativeFallback` (showing-placeholder) notification is invoked at
most once. -/
theorem notifications_at_most_once (c : Cfg) (es : List Ev) :
    countNotif (fun n => n.fallback) c (initState c) es ≤ 1 ∧
    countNotif (fun n => n.altFallback) c (initState c) es ≤ 1 := by
  constructor
  · exact countNotif_le_one _ c (fun s => s.hasTriedFallback)
      (fun s e h => deliver_fallback_fires c s e h)
      (fun s e h => deliver_hasTried_mono c s e h) es _
  · exact countNotif_le_one _ c (fun s => rendersPlaceholder c s)
      (fun s e h => deliver_alt_fires c s e h)
      (fun s e h => by rw [deliver_placeholder h e]; exact h) es _

/-! ## Claim C3 -/

/-- Claim C3 counterexample: with the default configuration
(`maxRetries = 3`), the first two failures schedule delays 1000 and 2000,
but the third failure schedules no retry timer at all (it takes the
exhausted branch), against the claim that failures 1, 2 and 3 schedule
delays 1000, 2000 and 4000. -/
theorem default_third_failure_schedules_nothing :
    (emitsRI DEFAULT_RETRY_CONFIG none (initRI "a")
        [REv.err, REv.timerFire 0 5, REv.err, REv.timerFire 1 6, REv.err]).map
        (fun r => r.scheduledDelay) =
      [some 1000, none, some 2000, none, none] ∧
    ((emitsRI DEFAULT_RETRY_CONFIG none (initRI "a")
        [REv.err, REv.timerFire 0 5, REv.err, REv.timerFire 1 6, REv.err]).getD 4
        noREmits).scheduledDelay ≠ some 4000 := by
  decide

/-- Claim C3 (amended): with the default configuration, failures 1 and 2
schedule retry timers with delays 1000 and 2000; the third failure
schedules no timer, sets the exhausted flag, and fires the
retries-exhausted notification, which over the whole trace is invoked
exactly once. -/
theorem default_retry_schedule :
    (emitsRI DEFAULT_RETRY_CONFIG none (initRI "a")
        [REv.err, REv.timerFire 0 5, REv.err, REv.timerFire 1 6, REv.err]).map
        (fun r => r.scheduledDelay) =
      [some 1000, none, some 2000, none, none] ∧
    (emitsRI DEFAULT_RETRY_CONFIG none (initRI "a")
        [REv.err, REv.timerFire 0 5, REv.err, REv.timerFire 1 6, REv.err]).map
        (fun r => r.onRetriesExhausted) =
      [false, false, false, false, true] ∧
    (traceRI DEFAULT_RETRY_CONFIG none (initRI "a")
        [REv.err, REv.timerFire 0 5, REv.err, REv.timerFire 1 6, REv.err]).hasExhaustedRetries
      = true ∧
    (traceRI DEFAULT_RETRY_CONFIG none (initRI "a")
        [REv.err, REv.timerFire 0 5, REv.err, REv.timerFire 1 6, REv.err]).attempts = 3 ∧
    (emitsRI DEFAULT_RETRY_CONFIG none (initRI "a")
        [REv.err, REv.timerFire 0 5, REv.err, REv.timerFire 1 6, REv.err]).countP
        (fun r => r.onRetriesExhausted) = 1 := by
  decide

/-! ## Claim C5 -/

/-- Claim C5 counterexample: in the `useImageRetry` hook with the default
configuration (`maxRetries = 3`), after three failures the exhausted flag
is true while `attempts = 2 < 3 = maxRetries` (the exhausting `retry()`
call does not increment the counter), against the claim that the
exhausted flag is true exactly when `attemptCount ≥ maxRetries`. -/
theorem hook_exhausted_below_max :
    (traceH DEFAULT_RETRY_CONFIG (initH "a")
        [HEv.err none, HEv.timerFire 0 5, HEv.err none, HEv.timerFire 1 6,
         HEv.err none]).hasExhaustedRetries = true ∧
    (traceH DEFAULT_RETRY_CONFIG (initH "a")
        [HEv.err none, HEv.timerFire 0 5, HEv.err none, HEv.timerFire 1 6,
         HEv.err none]).attempts = 2 ∧
    ¬(DEFAULT_RETRY_CONFIG.maxRetries ≤
      (traceH DEFAULT_RETRY_CONFIG (initH "a")
        [HEv.err none, HEv.timerFire 0 5, HEv.err none, HEv.timerFire 1 6,
         HEv.err none]).attempts) := by
  decide

theorem handleErrorRetry_attempts (cfg : RetryConfig) (fb : Option String) (s : RIState) :
    (handleErrorRetry cfg fb s).1.attempts = s.attempts + 1 := by
  simp only [handleErrorRetry]
  split_ifs <;> rfl

theorem handleErrorRetry_exh (cfg : RetryConfig) (fb : Option String) (s : RIState) :
    (handleErrorRetry cfg fb s).1.hasExhaustedRetries =
      (if s.attempts + 1 < cfg.maxRetries then s.hasExhaustedRetries else true) := by
  simp only [handleErrorRetry]
  split_ifs <;> rfl

theorem stepRI_exhaust_inv (cfg : RetryConfig) (fb : Option String)
    (hmax : 1 ≤ cfg.maxRetries) (s : RIState) (e : REv)
    (hs : s.hasExhaustedRetries = decide (cfg.maxRetries ≤ s.attempts)) :
    (stepRI cfg fb s e).1.hasExhaustedRetries =
      decide (cfg.maxRetries ≤ (stepRI cfg fb s e).1.attempts) := by
  cases e with
  | err =>
      simp only [stepRI]
      simp only [handleErrorRetry_exh, handleErrorRetry_attempts]
      split_ifs with hlt
      · rw [hs]
        simp only [decide_eq_decide]
        omega
      · symm
        simp only [decide_eq_true_eq]
        omega
  | load =>
      simpa [stepRI, handleLoadRetry] using hs
  | timerFire id now =>
      simp only [stepRI, fireRetryTimer]
      split_ifs <;> simpa using hs
  | srcChange newSrc =>
      simp only [stepRI, srcChangeEffect]
      split_ifs
      · have : ¬(cfg.maxRetries ≤ 0) := by omega
        simp [this]
      · simpa using hs

theorem traceRI_exhaust_inv (cfg : RetryConfig) (fb : Option String)
    (hmax : 1 ≤ cfg.maxRetries) :
    ∀ (evs : List REv) (s : RIState),
      s.hasExhaustedRetries = decide (cfg.maxRetries ≤ s.attempts) →
      (traceRI cfg fb s evs).hasExhaustedRetries =
        decide (cfg.maxRetries ≤ (traceRI cfg fb s evs).attempts) := by
  intro evs
  induction evs with
  | nil => intro s hs; exact hs
  | cons e es ih =>
      intro s hs
      simp only [traceRI]
      exact ih _ (stepRI_exhaust_inv cfg fb hmax s e hs)

theorem stepRI_mono (cfg : RetryConfig) (fb : Option String) (s : RIState) (e : REv)
    (hns : e.isSrcChange = false) :
    s.attempts ≤ (stepRI cfg fb s e).1.attempts ∧
    (s.hasExhaustedRetries = true → (stepRI cfg fb s e).1.hasExhaustedRetries = true) := by
  cases e with
  | err =>
      simp only [stepRI]
      simp only [handleErrorRetry_attempts, handleErrorRetry_exh]
      refine ⟨Nat.le_succ _, fun h => ?_⟩
      split_ifs
      · exact h
      · rfl
  | load =>
      exact ⟨le_refl _, fun h => h⟩
  | timerFire id now =>
      simp only [stepRI, fireRetryTimer]
      split_ifs
      · exact ⟨le_refl _, fun h => h⟩
      · exact ⟨le_refl _, fun h => h⟩
  | srcChange newSrc =>
      simp [REv.isSrcChange] at hns

theorem traceRI_mono (cfg : RetryConfig) (fb : Option String) :
    ∀ (evs : List REv), (∀ e ∈ evs, e.isSrcChange = false) →
      ∀ s : RIState,
        s.attempts ≤ (traceRI cfg fb s evs).attempts ∧
        (s.hasExhaustedRetries = true →
          (traceRI cfg fb s evs).hasExhaustedRetries = true) := by
  intro evs
  induction evs with
  | nil => intro _ s; exact ⟨le_refl _, fun h => h⟩
  | cons e es ih =>
      intro hns s
      have he := stepRI_mono cfg fb s e (hns e (List.mem_cons_self e es))
      have ht := ih (fun x hx => hns x (List.mem_cons_of_mem e hx)) (stepRI cfg fb s e).1
      simp only [traceRI]
      exact ⟨le_trans he.1 ht.1, fun h => ht.2 (he.2 h)⟩

theorem hookRetry_attempts (cfg : RetryConfig) (s : HState) :
    (hookRetry cfg s).1.attempts =
      (if cfg.maxRetries ≤ s.attempts + 1 then s.attempts else s.attempts + 1) := by
  simp only [hookRetry]
  split_ifs <;> rfl

theorem hookRetry_exh (cfg : RetryConfig) (s : HState) :
    (hookRetry cfg s).1.hasExhaustedRetries =
      (if cfg.maxRetries ≤ s.attempts + 1 then true else s.hasExhaustedRetries) := by
  simp only [hookRetry]
  split_ifs <;> rfl

theorem hookHandleError_attempts (cfg : RetryConfig) (s : HState) (msg : Option String) :
    (hookHandleError cfg s msg).attempts =
      (if cfg.maxRetries ≤ s.attempts + 1 then s.attempts else s.attempts + 1) := by
  simp only [hookHandleError]
  rw [hookRetry_attempts]

theorem hookHandleError_exh (cfg : RetryConfig) (s : HState) (msg : Option String) :
    (hookHandleError cfg s msg).hasExhaustedRetries =
      (if cfg.maxRetries ≤ s.attempts + 1 then true else s.hasExhaustedRetries) := by
  simp only [hookHandleError]
  rw [hookRetry_exh]

theorem stepH_inv (cfg : RetryConfig) (s : HState) (e : HEv)
    (hnr : e.isReset = false)
    (hs : s.attempts < cfg.maxRetries ∧
      (s.hasExhaustedRetries = true → s.attempts = cfg.maxRetries - 1)) :
    (stepH cfg s e).attempts < cfg.maxRetries ∧
      ((stepH cfg s e).hasExhaustedRetries = true →
        (stepH cfg s e).attempts = cfg.maxRetries - 1) := by
  cases e with
  | err msg =>
      simp only [stepH]
      simp only [hookHandleError_attempts, hookHandleError_exh]
      split_ifs with hc
      · exact ⟨hs.1, fun _ => by omega⟩
      · refine ⟨by omega, fun hex => ?_⟩
        have := hs.2 hex
        omega
  | retryCall =>
      simp only [stepH]
      simp only [hookRetry_attempts, hookRetry_exh]
      split_ifs with hc
      · exact ⟨hs.1, fun _ => by omega⟩
      · refine ⟨by omega, fun hex => ?_⟩
        have := hs.2 hex
        omega
  | load =>
      exact ⟨hs.1, hs.2⟩
  | timerFire id now =>
      simp only [stepH, hookFireTimer]
      split_ifs
      · exact ⟨hs.1, hs.2⟩
      · exact ⟨hs.1, hs.2⟩
  | resetCall =>
      simp [HEv.isReset] at hnr

theorem traceH_inv (cfg : RetryConfig) :
    ∀ (evs : List HEv), (∀ e ∈ evs, e.isReset = false) →
      ∀ s : HState,
        (s.attempts < cfg.maxRetries ∧
          (s.hasExhaustedRetries = true → s.attempts = cfg.maxRetries - 1)) →
        (traceH cfg s evs).attempts < cfg.maxRetries ∧
          ((traceH cfg s evs).hasExhaustedRetries = true →
            (traceH cfg s evs).attempts = cfg.maxRetries - 1) := by
  intro evs
  induction evs with
  | nil => intro _ s hs; exact hs
  | cons e es ih =>
      intro hnr s hs
      simp only [traceH]
      exact ih (fun x hx => hnr x (List.mem_cons_of_mem e hx)) _
        (stepH_inv cfg s e (hnr e (List.mem_cons_self e es)) hs)

theorem stepH_mono (cfg : RetryConfig) (s : HState) (e : HEv)
    (hnr : e.isReset = false) :
    s.attempts ≤ (stepH cfg s e).attempts ∧
    (s.hasExhaustedRetries = true → (stepH cfg s e).hasExhaustedRetries = true) := by
  cases e with
  | err msg =>
      simp only [stepH]
      simp only [hookHandleError_attempts, hookHandleError_exh]
      refine ⟨?_, fun h => ?_⟩
      · split_ifs <;> omega
      · split_ifs
        · rfl
        · exact h
  | retryCall =>
      simp only [stepH]
      simp only [hookRetry_attempts, hookRetry_exh]
      refine ⟨?_, fun h => ?_⟩
      · split_ifs <;> omega
      · split_ifs
        · rfl
        · exact h
  | load =>
      exact ⟨le_refl _, fun h => h⟩
  | timerFire id now =>
      simp only [stepH, hookFireTimer]
      split_ifs
      · exact ⟨le_refl _, fun h => h⟩
      · exact ⟨le_refl _, fun h => h⟩
  | resetCall =>
      simp [HEv.isReset] at hnr

theorem traceH_mono (cfg : RetryConfig) :
    ∀ (evs : List HEv), (∀ e ∈ evs, e.isReset = false) →
      ∀ s : HState,
        s.attempts ≤ (traceH cfg s evs).attempts ∧
        (s.hasExhaustedRetries = true →
          (traceH cfg s evs).hasExhaustedRetries = true) := by
  intro evs
  induction evs with
  | nil => intro _ s; exact ⟨le_refl _, fun h => h⟩
  | cons e es ih =>
      intro hnr s
      have he := stepH_mono cfg s e (hnr e (List.mem_cons_self e es))
      have ht := ih (fun x hx => hnr x (List.mem_cons_of_mem e hx)) (stepH cfg s e)
      simp only [traceH]
      exact ⟨le_trans he.1 ht.1, fun h => ht.2 (he.2 h)⟩

/-- Claim C5 (amended): within one source-lifetime `attempts` is
monotonically non-decreasing and the exhausted flag, once true, never
becomes false, in both the `RetryImage` machine (no src-change event) and
the `useImageRetry` hook (no reset call).  In every reachable state of
the `RetryImage` machine with `maxRetries ≥ 1` the exhausted flag is true
exactly when `attempts ≥ maxRetries`; in the `useImageRetry` hook that
biconditional fails: every reachable state has `attempts < maxRetries`,
and an exhausted state has `attempts = maxRetries - 1`. -/
theorem retry_counters_invariant :
    (∀ (cfg : RetryConfig) (fb : Option String) (src : String) (evs : List REv),
      1 ≤ cfg.maxRetries →
      (traceRI cfg fb (initRI src) evs).hasExhaustedRetries =
        decide (cfg.maxRetries ≤ (traceRI cfg fb (initRI src) evs).attempts)) ∧
    (∀ (cfg : RetryConfig) (fb : Option String) (s : RIState) (evs : List REv),
      (∀ e ∈ evs, e.isSrcChange = false) →
      s.attempts ≤ (traceRI cfg fb s evs).attempts ∧
      (s.hasExhaustedRetries = true →
        (traceRI cfg fb s evs).hasExhaustedRetries = true)) ∧
    (∀ (cfg : RetryConfig) (src : String) (evs : List HEv),
      1 ≤ cfg.maxRetries → (∀ e ∈ evs, e.isReset = false) →
      (traceH cfg (initH src) evs).attempts < cfg.maxRetries ∧
      ((traceH cfg (initH src) evs).hasExhaustedRetries = true →
        (traceH cfg (initH src) evs).attempts = cfg.maxRetries - 1)) ∧
    (∀ (cfg : RetryConfig) (s : HState) (evs : List HEv),
      (∀ e ∈ evs, e.isReset = false) →
      s.attempts ≤ (traceH cfg s evs).attempts ∧
      (s.hasExhaustedRetries = true →
        (traceH cfg s evs).hasExhaustedRetries = true)) := by
  refine ⟨?_, ?_, ?_, ?_⟩
  · intro cfg fb src evs hmax
    refine traceRI_exhaust_inv cfg fb hmax evs (initRI src) ?_
    have : ¬(cfg.maxRetries ≤ 0) := by omega
    simp [initRI, this]
  · intro cfg fb s evs hns
    exact traceRI_mono cfg fb evs hns s
  · intro cfg src evs hmax hnr
    refine traceH_inv cfg evs hnr (initH src) ?_
    exact ⟨by simpa [initH] using hmax, by simp [initH]⟩
  · intro cfg s evs hnr
    exact traceH_mono cfg evs hnr s

/-- Witness for the amended C5 on a concrete one-failure trace. -/
theorem retry_counters_invariant_witness :
    (traceRI DEFAULT_RETRY_CONFIG none (initRI "a") [REv.err]).hasExhaustedRetries =
      decide (DEFAULT_RETRY_CONFIG.maxRetries ≤
        (traceRI DEFAULT_RETRY_CONFIG none (initRI "a") [REv.err]).attempts) ∧
    (traceH DEFAULT_RETRY_CONFIG (initH "a") [HEv.err none]).attempts <
      DEFAULT_RETRY_CONFIG.maxRetries :=
  ⟨retry_counters_invariant.1 DEFAULT_RETRY_CONFIG none "a" [REv.err] (by decide),
   (retry_counters_invariant.2.2.1 DEFAULT_RETRY_CONFIG "a" [HEv.err none] (by decide)
     (by intro e he; cases he with
         | head => rfl
         | tail _ h => cases h)).1⟩

/-! ## Claim C6 -/

/-- Claim C6 counterexample: after one failure of the hook (timer with
delay 1000 scheduled), calling `reset()` restores the counters and the
source, but the scheduled timer is still outstanding, and when it fires
it mutates the state of the reset instance (the source becomes the
cache-busted original, no longer the reset value), against the claim
that `reset()` cancels any pending timer. -/
theorem reset_leaves_timer_pending :
    (hookReset (hookHandleError DEFAULT_RETRY_CONFIG (initH "a") none)).attempts = 0 ∧
    (hookReset (hookHandleError DEFAULT_RETRY_CONFIG (initH "a") none)).hasExhaustedRetries
      = false ∧
    (hookReset (hookHandleError DEFAULT_RETRY_CONFIG (initH "a") none)).src = "a" ∧
    (hookReset (hookHandleError DEFAULT_RETRY_CONFIG (initH "a") none)).pendingTimers =
      [(0, 1000)] ∧
    (hookFireTimer (hookReset (hookHandleError DEFAULT_RETRY_CONFIG (initH "a") none))
      0 7).src = "a?_retry=7" ∧
    (hookFireTimer (hookReset (hookHandleError DEFAULT_RETRY_CONFIG (initH "a") none))
      0 7).src ≠
      (hookReset (hookHandleError DEFAULT_RETRY_CONFIG (initH "a") none)).src := by
  decide

/-- Claim C6 (amended): `reset()` restores `attempts` to 0, the exhausted
flag to false, the active source to the originally requested source, and
clears `isRetrying`, `hasLoaded` and the error — but it does not cancel a
pending retry timer: the outstanding timers and the timeout ref are left
untouched, so a timer scheduled before the reset can still fire and
mutate the state afterwards. -/
theorem hookReset_spec (s : HState) :
    (hookReset s).attempts = 0 ∧
    (hookReset s).hasExhaustedRetries = false ∧
    (hookReset s).src = s.originalSrc ∧
    (hookReset s).originalSrc = s.originalSrc ∧
    (hookReset s).isRetrying = false ∧
    (hookReset s).hasLoaded = false ∧
    (hookReset s).error = none ∧
    (hookReset s).pendingTimers = s.pendingTimers ∧
    (hookReset s).timeoutRef = s.timeoutRef :=
  ⟨rfl, rfl, rfl, rfl, rfl, rfl, rfl, rfl, rfl⟩

/-! ## Claim C7 -/

/-- Claim C7 counterexample: a failure schedules timer 0; changing the
requested source to `"b"` resets the state but leaves timer 0
outstanding (no cancellation), against the claim that a source change
cancels any pending timer; a further failure on the new source schedules
a second timer, so two timers are outstanding at once; and the stale
timer 0, firing after the reset, mutates the logically-reset instance
(its source becomes a cache-busted `"b"`). -/
theorem src_change_leaves_timer :
    (traceRI DEFAULT_RETRY_CONFIG none (initRI "a")
        [REv.err, REv.srcChange "b"]).pendingTimers = [(0, 1000)] ∧
    (traceRI DEFAULT_RETRY_CONFIG none (initRI "a")
        [REv.err, REv.srcChange "b"]).attempts = 0 ∧
    (traceRI DEFAULT_RETRY_CONFIG none (initRI "a")
        [REv.err, REv.srcChange "b", REv.err]).pendingTimers.length = 2 ∧
    (traceRI DEFAULT_RETRY_CONFIG none (initRI "a")
        [REv.err, REv.srcChange "b", REv.timerFire 0 9]).currentSrc = "b?_retry=9" ∧
    (traceRI DEFAULT_RETRY_CONFIG none (initRI "a")
        [REv.err, REv.srcChange "b", REv.timerFire 0 9]).currentSrc ≠ "b" := by
  decide

/-- Claim C7 (amended): the src-change effect of `RetryImage` applies the
reset (counters, flags, sources) without touching the outstanding timers
or the timeout ref; only the unmount cleanup cancels a timer, and only
the one currently held in the ref.  Consequently a stale timer survives
a source change and can mutate the reset instance, and more than one
timer can be outstanding. -/
theorem srcChange_timer_behaviour (s : RIState) (newSrc : String) :
    (srcChangeEffect s newSrc).pendingTimers = s.pendingTimers ∧
    (srcChangeEffect s newSrc).timeoutRef = s.timeoutRef ∧
    (newSrc ≠ s.originalSrc →
      (srcChangeEffect s newSrc).attempts = 0 ∧
      (srcChangeEffect s newSrc).originalSrc = newSrc ∧
      (srcChangeEffect s newSrc).currentSrc = newSrc ∧
      (srcChangeEffect s newSrc).hasExhaustedRetries = false ∧
      (srcChangeEffect s newSrc).isRetrying = false) ∧
    (∀ id, s.timeoutRef = some id →
      (unmountCleanup s).pendingTimers =
        s.pendingTimers.filter (fun p => p.1 != id)) := by
  refine ⟨?_, ?_, ?_, ?_⟩
  · unfold srcChangeEffect
    split_ifs <;> rfl
  · unfold srcChangeEffect
    split_ifs <;> rfl
  · intro hne
    have hb : (newSrc != s.originalSrc) = true := by
      simpa using hne
    unfold srcChangeEffect
    rw [if_pos hb]
    exact ⟨rfl, rfl, rfl, rfl, rfl⟩
  · intro id hid
    unfold unmountCleanup
    rw [hid]

/-- Witness for the amended C7 at the state reached by one failure. -/
theorem srcChange_timer_behaviour_witness :
    (srcChangeEffect (traceRI DEFAULT_RETRY_CONFIG none (initRI "a") [REv.err])
      "b").attempts = 0 ∧
    (unmountCleanup (traceRI DEFAULT_RETRY_CONFIG none (initRI "a")
      [REv.err])).pendingTimers = [] :=
  ⟨((srcChange_timer_behaviour (traceRI DEFAULT_RETRY_CONFIG none (initRI "a") [REv.err])
      "b").2.2.1 (by decide)).1,
   ((srcChange_timer_behaviour (traceRI DEFAULT_RETRY_CONFIG none (initRI "a") [REv.err])
      "b").2.2.2 0 (by decide)).trans (by decide)⟩
